import Mathlib

/-!
Verification of the CareConnect alert escalation and notification-routing
pipeline (`src/agent/nurse_notifier_agent.py` and the risk-to-priority map of
`src/agent/triage_agent.py`) against its natural-language specification.

Modelling conventions:
* Python strings are Lean `String`s; character-level slicing (`s[:150]`) and
  `str.strip()` are modelled on the underlying `List Char`.
* Python dict-shaped records become structures; a key read with
  `dict.get(k, default)` becomes an `Option` field read with `Option.getD`.
* The agent's mutable state (`self.healthcare_providers`, `self.alert_history`)
  is threaded explicitly: every operation takes an `AgentState` and returns the
  new state together with the Python method's return dictionary.
* `datetime.now()` values are supplied as explicit arguments (`now` for the
  `%Y%m%d_%H%M%S` strftime form used in alert ids, `nowIso` for `isoformat()`).
* The four channel senders wrap their (commented-out) external integration in a
  `try/except` that converts any failure into the boolean `False`; the outcome
  of that external call is supplied by an environment `env : Channel → Bool`
  (see the doc comments on the senders).
-/

namespace CareConnect

/-- Whitespace characters stripped by Python `str.strip()` (the ASCII subset,
which covers every character the alert-message template can place at the ends
of the string). -/
def isPySpace (c : Char) : Bool :=
  c = ' ' || c = '\t' || c = '\n' || c = '\r' || c = '\x0b' || c = '\x0c'

/-- Python `str.strip()` on the underlying character list: drop whitespace from
the left, then from the right. -/
def pyStripList (l : List Char) : List Char :=
  ((l.dropWhile isPySpace).reverse.dropWhile isPySpace).reverse

/-- Python `str.strip()` on strings. -/
def pyStrip (s : String) : String :=
  ⟨pyStripList s.data⟩

/-- Python slice `s[:n]` for a non-negative bound: the first `n` characters. -/
def pyTake (n : Nat) (s : String) : String :=
  ⟨s.data.take n⟩

/-- Python `len(s)`: the number of characters (code points). -/
def pyLen (s : String) : Nat :=
  s.data.length

/-- Python `", ".join(l)`. -/
def joinComma : List String → String
  | [] => ""
  | [s] => s
  | s :: rest => s ++ ", " ++ joinComma rest

/-- The four delivery channels of `alert_config.notification_channels`. -/
inductive Channel
  | dashboard
  | sms
  | pager
  | email
deriving DecidableEq, Repr

/-- A provider's `contact` record (`_initialize_healthcare_providers`): all
four addresses are present for every provider in the directory. -/
structure Contact where
  phone : String
  email : String
  pager : String
  dashboard_id : String
deriving DecidableEq, Repr

/-- A healthcare-provider directory entry (`_initialize_healthcare_providers`).
The weekly `shift_schedule` table (day → time range) is carried as an
association list; it is seeded data that no notification-path code reads. -/
structure Provider where
  name : String
  role : String
  department : String
  contact : Contact
  shift_schedule : List (String × String)
  specializations : List String
  on_call : Bool
deriving DecidableEq, Repr

/-- The `patient_info` snapshot embedded in every alert (`_create_alert`). -/
structure PatientInfo where
  name : String
  condition : String
  original_message : String
deriving DecidableEq, Repr

/-- The triage-assessment dictionary consumed by `_create_alert`. Fields are
`Option`s because the Python code reads them with `dict.get` and a default;
the empty dict `{}` is the all-`none` record. -/
structure TriageAssessment where
  risk_level : Option String
  symptoms_identified : Option (List String)
  urgency_score : Option Nat
  reasoning : Option String
  recommendations : Option (List String)
deriving DecidableEq, Repr

/-- The alert dictionary built by `_create_alert`. -/
structure Alert where
  alert_id : String
  timestamp : String
  priority : String
  risk_level : String
  urgency_score : Nat
  patient_info : PatientInfo
  triage_assessment : TriageAssessment
  alert_message : String
  status : String
  response_required : Bool
  escalation_level : Nat
  created_by : String
deriving DecidableEq, Repr

/-- The per-provider notification outcome built by
`_send_notification_to_provider`. -/
structure NotificationResult where
  provider_name : String
  provider_role : String
  channels_used : List String
  status : String
  error : Option String
  timestamp : String
deriving DecidableEq, Repr

/-- The patient-context dictionary passed to `send_alert`; `_create_alert`
reads `name` and `condition` with `dict.get` defaults. -/
structure PatientContext where
  name : Option String
  condition : Option String
deriving DecidableEq, Repr

/-- The agent's mutable state: the provider directory (a Python dict in
insertion order, modelled as an association list) and the alert history. -/
structure AgentState where
  healthcare_providers : List (String × Provider)
  alert_history : List Alert
deriving Repr

/-- The seeded provider directory (`_initialize_healthcare_providers`). -/
def initialProviders : List (String × Provider) :=
  [("nurse_david",
    { name := "David Johnson"
      role := "Registered Nurse"
      department := "Orthopedic Floor"
      contact :=
        { phone := "+1-555-0123"
          email := "david.johnson@hospital.com"
          pager := "555-1234"
          dashboard_id := "nurse_dashboard_001" }
      shift_schedule :=
        [("monday", "07:00-19:00"), ("tuesday", "07:00-19:00"),
         ("wednesday", "07:00-19:00"), ("thursday", "off"), ("friday", "off"),
         ("saturday", "07:00-19:00"), ("sunday", "07:00-19:00")]
      specializations := ["post-operative care", "orthopedic patients"]
      on_call := true }),
   ("dr_smith",
    { name := "Dr. Sarah Smith"
      role := "Orthopedic Surgeon"
      department := "Orthopedic Surgery"
      contact :=
        { phone := "+1-555-0456"
          email := "sarah.smith@hospital.com"
          pager := "555-5678"
          dashboard_id := "doctor_dashboard_002" }
      shift_schedule :=
        [("monday", "08:00-17:00"), ("tuesday", "08:00-17:00"),
         ("wednesday", "08:00-17:00"), ("thursday", "08:00-17:00"),
         ("friday", "08:00-17:00"), ("saturday", "on-call"), ("sunday", "off")]
      specializations := ["knee replacement", "hip replacement", "joint surgery"]
      on_call := false })]

/-- The fresh-state agent (`NurseNotifierAgent.__init__`): seeded directory and
empty alert history. -/
def initialState : AgentState :=
  { healthcare_providers := initialProviders, alert_history := [] }

/-- Alert-id generation in `_create_alert`:
`f"ALERT_{len(self.alert_history) + 1}_{datetime.now().strftime(..)}"`. -/
def mkAlertId (n : Nat) (now : String) : String :=
  "ALERT_" ++ toString n ++ "_" ++ now

/-- Source `_map_risk_to_priority` of `triage_agent.py`:
`{"CRITICAL": "URGENT", "MODERATE": "HIGH", "LOW": "NORMAL"}.get(risk, "HIGH")`. -/
def mapRiskToPriority (risk_level : String) : String :=
  if risk_level = "CRITICAL" then "URGENT"
  else if risk_level = "MODERATE" then "HIGH"
  else if risk_level = "LOW" then "NORMAL"
  else "HIGH"

/-- The urgency banner of `_format_alert_message`:
`{"CRITICAL": .., "MODERATE": .., "LOW": ..}.get(risk_level, "⚠️ ATTENTION")`. -/
def urgencyIndicator (risk_level : String) : String :=
  if risk_level = "CRITICAL" then "🚨 URGENT"
  else if risk_level = "MODERATE" then "⚠️ HIGH PRIORITY"
  else if risk_level = "LOW" then "ℹ️ ROUTINE"
  else "⚠️ ATTENTION"

/-- The truncated patient report interpolated by `_format_alert_message`:
`{patient_message[:150]}{'...' if len(patient_message) > 150 else ''}`. -/
def truncatedReport (patient_message : String) : String :=
  pyTake 150 patient_message ++ (if 150 < pyLen patient_message then "..." else "")

/-- Source `_format_alert_message`: the f-string template followed by `.strip()`.
`now` is the `%Y%m%d_%H%M%S` strftime value interpolated on the
`Alert ID:` line. -/
def formatAlertMessage (patient_name patient_message : String)
    (symptoms : List String) (risk_level : String) (now : String) : String :=
  let symptoms_text := if symptoms.isEmpty then "See details" else joinComma symptoms
  let action :=
    if risk_level = "CRITICAL" then "Contact patient immediately"
    else "Review and respond within expected timeframe"
  pyStrip ("\n" ++ urgencyIndicator risk_level ++ ": Patient Alert - " ++ patient_name
    ++ "\n\nSYMPTOMS: " ++ symptoms_text
    ++ "\nPATIENT REPORT: \"" ++ truncatedReport patient_message
    ++ "\"\n\nRISK LEVEL: " ++ risk_level
    ++ "\nIMMEDIATE ACTION: " ++ action
    ++ "\n\nAlert ID: " ++ now
    ++ "\n        ")

/-- Source `_create_alert`: builds the structured alert object. Never raises; every
missing assessment/context field is replaced by its `dict.get` default. -/
def createAlert (history_length : Nat) (patient_message : String)
    (triage_assessment : TriageAssessment) (patient_context : PatientContext)
    (priority timestamp now : String) : Alert :=
  let alert_id := mkAlertId (history_length + 1) now
  let patient_name := patient_context.name.getD "Unknown Patient"
  let symptoms := triage_assessment.symptoms_identified.getD []
  let risk_level := triage_assessment.risk_level.getD "MODERATE"
  let urgency_score := triage_assessment.urgency_score.getD 5
  { alert_id := alert_id
    timestamp := timestamp
    priority := priority
    risk_level := risk_level
    urgency_score := urgency_score
    patient_info :=
      { name := patient_name
        condition := patient_context.condition.getD "Unknown"
        original_message := patient_message }
    triage_assessment := triage_assessment
    alert_message := formatAlertMessage patient_name patient_message symptoms risk_level now
    status := "sent"
    response_required := true
    escalation_level := 0
    created_by := "triage_agent" }

/-- Whether a candidate id is on call: `_determine_notification_recipients`
reads `self.healthcare_providers.get(id)` and then `provider.get("on_call", False)`. -/
def isOnCall (providers : List (String × Provider)) (rid : String) : Bool :=
  match providers.lookup rid with
  | some p => p.on_call
  | none => false

/-- Source `_determine_notification_recipients`: primary nurse always a candidate,
physician added for CRITICAL risk or URGENT priority, candidates filtered to
on-call providers, with fallback to every directory key when that filter
comes back empty. -/
def determineNotificationRecipients (providers : List (String × Provider))
    (alert : Alert) : List String :=
  let recipients :=
    ["nurse_david"]
      ++ (if alert.risk_level = "CRITICAL" || alert.priority = "URGENT"
          then ["dr_smith"] else [])
  let available_recipients := recipients.filter (fun rid => isOnCall providers rid)
  if available_recipients.isEmpty then providers.map Prod.fst
  else available_recipients

/-- Modelled from the spec: the dashboard channel sender. The source's
`_send_dashboard_notification` builds the payload and wraps the external
dashboard API call — present only as a commented-out `requests.post` stub that
is replaced by `return True` — in a `try/except` returning `False` on failure.
Per §6 the sender contract is `send(msg, addr) -> success|failure`, so the
external call's outcome is supplied by the environment `env`. -/
def sendDashboardNotification (env : Channel → Bool) (_alert : Alert)
    (_dashboard_id : String) : Bool :=
  env Channel.dashboard

/-- Modelled from the spec: the SMS channel sender (`_send_sms_notification`);
the Twilio call is a commented-out stub, its outcome supplied by `env`, with
the sender's own `except` branch converting failure to `False`. -/
def sendSmsNotification (env : Channel → Bool) (_alert : Alert)
    (_phone_number : String) : Bool :=
  env Channel.sms

/-- Modelled from the spec: the pager channel sender
(`_send_pager_notification`), outcome supplied by `env`. -/
def sendPagerNotification (env : Channel → Bool) (_alert : Alert)
    (_pager_number : String) : Bool :=
  env Channel.pager

/-- Modelled from the spec: the email channel sender
(`_send_email_notification`), outcome supplied by `env`. -/
def sendEmailNotification (env : Channel → Bool) (_alert : Alert)
    (_email_address : String) : Bool :=
  env Channel.email

/-- Source `_send_notification_to_provider`: dispatch one alert to one provider.
Mirrors the source exactly: each sender's boolean result is bound and never
inspected; the channel name is appended to `channels_used` unconditionally
after each send; `status` starts as `"success"` and is set to `"error"` only
by the `except` branch, which no sender can trigger because each sender
catches its own failures and reports them as `False`. -/
def sendNotificationToProvider (env : Channel → Bool) (nowIso : String)
    (alert : Alert) (provider : Provider) : NotificationResult :=
  let contact_info := provider.contact
  let channels : List String := []
  let _dashboard_result := sendDashboardNotification env alert contact_info.dashboard_id
  let channels := channels ++ ["dashboard"]
  let channels :=
    if alert.priority = "URGENT" || alert.priority = "HIGH" then
      let _sms_result := sendSmsNotification env alert contact_info.phone
      let channels := channels ++ ["sms"]
      if alert.priority = "URGENT" then
        let _pager_result := sendPagerNotification env alert contact_info.pager
        channels ++ ["pager"]
      else channels
    else channels
  let _email_result := sendEmailNotification env alert contact_info.email
  let channels := channels ++ ["email"]
  { provider_name := provider.name
    provider_role := provider.role
    channels_used := channels
    status := "success"
    error := none
    timestamp := nowIso }

/-- Source `_get_expected_response_time`: response-time bound in minutes, keyed by
priority with the HIGH bound as the `dict.get` default. -/
def expectedResponseTime (priority : String) : Nat :=
  if priority = "URGENT" then 15
  else if priority = "HIGH" then 60
  else if priority = "NORMAL" then 240
  else 60

/-- The request dictionary of `send_alert`; `priority` and `timestamp` are
`Option`s because the source reads them with defaults (`"HIGH"` and
`datetime.now().isoformat()`). -/
structure SendAlertRequest where
  patient_message : String
  triage_assessment : TriageAssessment
  patient_context : PatientContext
  priority : Option String
  timestamp : Option String
deriving Repr

/-- The dictionary returned by `send_alert`. -/
structure SendAlertResponse where
  status : String
  alert_id : String
  priority : String
  providers_notified : Nat
  notification_results : List NotificationResult
  expected_response_time_minutes : Nat
  timestamp : String
deriving Repr

/-- Source `send_alert`: create the alert, resolve recipients, dispatch to each
resolved provider that the directory knows, append the alert to history, and
return the summary. No modelled code path can raise, so the `except` branch
(status `"error"`) is unreachable. -/
def sendAlert (st : AgentState) (env : Channel → Bool)
    (req : SendAlertRequest) (now nowIso : String) : AgentState × SendAlertResponse :=
  let priority := req.priority.getD "HIGH"
  let timestamp := req.timestamp.getD nowIso
  let alert := createAlert st.alert_history.length req.patient_message
    req.triage_assessment req.patient_context priority timestamp now
  let providers_to_notify := determineNotificationRecipients st.healthcare_providers alert
  let notification_results := providers_to_notify.filterMap fun provider_id =>
    (st.healthcare_providers.lookup provider_id).map fun provider =>
      sendNotificationToProvider env nowIso alert provider
  let st' := { st with alert_history := st.alert_history ++ [alert] }
  (st',
   { status := "alert_sent"
     alert_id := alert.alert_id
     priority := priority
     providers_notified := notification_results.length
     notification_results := notification_results
     expected_response_time_minutes := expectedResponseTime priority
     timestamp := timestamp })

/-- The request dictionary of `get_alert_history` (`limit` defaults to 50;
`patient_name` defaults to `None`). -/
structure HistoryRequest where
  limit : Option Nat
  patient_name : Option String
deriving Repr

/-- The dictionary returned by `get_alert_history`. -/
structure HistoryResponse where
  status : String
  alerts : List Alert
  total_alerts : Nat
  limit_applied : Nat
deriving Repr

/-- Python `list.sort(key=lambda x: x["timestamp"], reverse=True)`: a stable
sort, newest timestamp first. -/
def pySortByTimestampDesc (l : List Alert) : List Alert :=
  l.mergeSort fun a b => decide (b.timestamp ≤ a.timestamp)

/-- Python truthiness of the `patient_name` value: `if patient_name:` is
false for both `None` and the empty string. -/
def patientNameTruthy : Option String → Bool
  | some s => s ≠ ""
  | none => false

/-- Source `get_alert_history`. When `patient_name` is truthy the comprehension
builds a fresh filtered list and sorting touches only that copy; otherwise
`filtered_alerts` aliases `self.alert_history` and the in-place
`filtered_alerts.sort(...)` reorders the store's own history list. -/
def getAlertHistory (st : AgentState) (req : HistoryRequest) :
    AgentState × HistoryResponse :=
  let limit := req.limit.getD 50
  if patientNameTruthy req.patient_name then
    let name := req.patient_name.getD ""
    let filtered_alerts := st.alert_history.filter fun a =>
      a.patient_info.name = name
    let sorted := pySortByTimestampDesc filtered_alerts
    (st,
     { status := "success"
       alerts := sorted.take limit
       total_alerts := sorted.length
       limit_applied := limit })
  else
    let sorted := pySortByTimestampDesc st.alert_history
    ({ st with alert_history := sorted },
     { status := "success"
       alerts := sorted.take limit
       total_alerts := sorted.length
       limit_applied := limit })

/-- The in-place mutation of the `for alert in self.alert_history` loop of
`escalate_alert`: overwrite the priority of the first alert whose id matches
and increment its escalation level, returning the updated history together
with the matched alert's old and new values; `none` when no alert matches. -/
def updateFirstMatch (alert_id new_priority : String) :
    List Alert → Option (List Alert × Alert × Alert)
  | [] => none
  | a :: rest =>
    if a.alert_id = alert_id then
      let a' := { a with priority := new_priority,
                         escalation_level := a.escalation_level + 1 }
      some (a' :: rest, a, a')
    else
      (updateFirstMatch alert_id new_priority rest).map fun x =>
        (a :: x.1, x.2)

/-- The dictionary returned by `escalate_alert`; the summary fields are
`Option`s because the not-found branch omits them. -/
structure EscalateResponse where
  status : String
  alert_id : Option String
  old_priority : Option String
  new_priority : Option String
  escalation_level : Option Nat
  escalation_result : Option SendAlertResponse
deriving Repr

/-- Source `escalate_alert`: find the first alert with the given id, mutate its
priority and escalation level in place, then run a fresh `send_alert` cycle
(which appends a brand-new alert whose patient message carries the
`"ESCALATED: "` prefix). `new_priority` defaults to `"URGENT"`. -/
def escalateAlert (st : AgentState) (env : Channel → Bool)
    (alert_id : String) (new_priority_req : Option String)
    (now nowIso : String) : AgentState × EscalateResponse :=
  let new_priority := new_priority_req.getD "URGENT"
  match updateFirstMatch alert_id new_priority st.alert_history with
  | none =>
    (st,
     { status := "not_found", alert_id := none, old_priority := none,
       new_priority := none, escalation_level := none, escalation_result := none })
  | some (history', old_alert, updated) =>
    let st1 := { st with alert_history := history' }
    let (st2, send_resp) := sendAlert st1 env
      { patient_message := "ESCALATED: " ++ updated.patient_info.original_message
        triage_assessment := updated.triage_assessment
        patient_context :=
          { name := some updated.patient_info.name
            condition := some updated.patient_info.condition }
        priority := some new_priority
        timestamp := some nowIso }
      now nowIso
    (st2,
     { status := "escalated"
       alert_id := some alert_id
       old_priority := some old_alert.priority
       new_priority := some new_priority
       escalation_level := some updated.escalation_level
       escalation_result := some send_resp })

/-- The first alert in the history carrying the given id (the alert that the
`escalate_alert` loop operates on). -/
def findAlert (history : List Alert) (alert_id : String) : Option Alert :=
  history.find? fun a => a.alert_id = alert_id

/-- The spec's priority → channel-tier table (§4.2), stated from the spec's
words for the refinement claim C3. -/
def specChannelTier (priority : String) : List String :=
  if priority = "NORMAL" then ["dashboard", "email"]
  else if priority = "HIGH" then ["dashboard", "sms", "email"]
  else if priority = "URGENT" then ["dashboard", "sms", "pager", "email"]
  else []

/-! Concrete example data used by witnesses and counterexamples. -/

/-- An environment in which every external channel send fails. -/
def envAllFail : Channel → Bool := fun _ => false

/-- An environment in which every external channel send succeeds. -/
def envAllOk : Channel → Bool := fun _ => true

/-- A sample alert with the given priority and risk level. -/
def exAlert (priority risk : String) : Alert :=
  { alert_id := "a1"
    timestamp := "T1"
    priority := priority
    risk_level := risk
    urgency_score := 5
    patient_info := ⟨"Elena", "knee replacement", "I have a high fever"⟩
    triage_assessment := ⟨some risk, some ["fever"], some 9, none, none⟩
    alert_message := ""
    status := "sent"
    response_required := true
    escalation_level := 0
    created_by := "triage_agent" }

/-- A sample provider with every contact channel populated. -/
def exProviderNurse : Provider :=
  { name := "David Johnson"
    role := "Registered Nurse"
    department := "Orthopedic Floor"
    contact := ⟨"+1-555-0123", "david.johnson@hospital.com", "555-1234", "nurse_dashboard_001"⟩
    shift_schedule := []
    specializations := []
    on_call := true }

/-- A sample store holding one alert for the patient Elena. -/
def exStore : AgentState :=
  { healthcare_providers := initialProviders
    alert_history := [exAlert "HIGH" "MODERATE"] }

/-- C5 counterexample: the claim maps every risk level other than CRITICAL and
MODERATE to NORMAL, but the source's `dict.get` default is `"HIGH"`, so the
unrecognized value `"SEVERE"` is mapped to HIGH, not NORMAL. -/
theorem map_risk_unrecognized_counterexample :
    mapRiskToPriority "SEVERE" = "HIGH" ∧ ¬ mapRiskToPriority "SEVERE" = "NORMAL" := by
  constructor
  · rfl
  · decide

/-- C5 (amended): the mapping sends CRITICAL to URGENT, MODERATE to HIGH and
LOW to NORMAL, and every unrecognized risk level to HIGH (the `dict.get`
default), not to NORMAL. -/
theorem map_risk_to_priority_table (r : String)
    (h1 : r ≠ "CRITICAL") (h2 : r ≠ "MODERATE") (h3 : r ≠ "LOW") :
    mapRiskToPriority "CRITICAL" = "URGENT" ∧
    mapRiskToPriority "MODERATE" = "HIGH" ∧
    mapRiskToPriority "LOW" = "NORMAL" ∧
    mapRiskToPriority r = "HIGH" := by
  refine ⟨rfl, rfl, rfl, ?_⟩
  simp [mapRiskToPriority, h1, h2, h3]

/-- Witness for C5's amended theorem at the concrete risk level "POSSIBLY". -/
theorem map_risk_to_priority_table_witness :
    (("POSSIBLY" : String) ≠ "CRITICAL" ∧ ("POSSIBLY" : String) ≠ "MODERATE" ∧
      ("POSSIBLY" : String) ≠ "LOW") ∧
    (mapRiskToPriority "CRITICAL" = "URGENT" ∧
     mapRiskToPriority "MODERATE" = "HIGH" ∧
     mapRiskToPriority "LOW" = "NORMAL" ∧
     mapRiskToPriority "POSSIBLY" = "HIGH") :=
  ⟨by decide,
   map_risk_to_priority_table "POSSIBLY" (by decide) (by decide) (by decide)⟩

/-- C1 counterexample: with every external channel send failing, dispatching an
URGENT alert still yields a NotificationResult with status `"success"` (the
claim requires status `"error"` when every channel fails), and `channels_used`
lists all four attempted channels rather than the (empty) succeeded set. -/
theorem dispatch_allfail_reports_success :
    envAllFail Channel.dashboard = false ∧ envAllFail Channel.sms = false ∧
    envAllFail Channel.pager = false ∧ envAllFail Channel.email = false ∧
    (sendNotificationToProvider envAllFail "T1" (exAlert "URGENT" "CRITICAL")
        exProviderNurse).status = "success" ∧
    ¬ (sendNotificationToProvider envAllFail "T1" (exAlert "URGENT" "CRITICAL")
        exProviderNurse).status = "error" ∧
    (sendNotificationToProvider envAllFail "T1" (exAlert "URGENT" "CRITICAL")
        exProviderNurse).channels_used = ["dashboard", "sms", "pager", "email"] := by
  refine ⟨rfl, rfl, rfl, rfl, rfl, by decide, rfl⟩

/-- C1 (amended): the dispatcher attempts every channel of the priority tier
regardless of the senders' reported outcomes, but those boolean outcomes are
discarded: the NotificationResult always carries status `"success"` with no
error detail, and `channels_used` (the list of attempted channels) is
independent of which sends succeeded. Status `"error"` would require an
exception to escape a sender, which each sender's own handler prevents. -/
theorem dispatch_status_ignores_send_outcomes
    (env env2 : Channel → Bool) (nowIso nowIso2 : String)
    (alert : Alert) (provider : Provider) :
    (sendNotificationToProvider env nowIso alert provider).status = "success" ∧
    (sendNotificationToProvider env nowIso alert provider).error = none ∧
    (sendNotificationToProvider env nowIso alert provider).channels_used
      = (sendNotificationToProvider env2 nowIso2 alert provider).channels_used :=
  ⟨rfl, rfl, rfl⟩

/-- C3: the channels attempted by the dispatcher for the three priority tiers
are exactly the spec's table — NORMAL: dashboard, email; HIGH: dashboard, SMS,
email; URGENT: dashboard, SMS, pager, email — and the tiers grow as supersets
as priority rises. -/
theorem dispatch_channels_match_priority_tier
    (env : Channel → Bool) (nowIso : String) (alert : Alert) (provider : Provider)
    (h : alert.priority = "NORMAL" ∨ alert.priority = "HIGH" ∨ alert.priority = "URGENT") :
    (sendNotificationToProvider env nowIso alert provider).channels_used
      = specChannelTier alert.priority ∧
    specChannelTier "NORMAL" ⊆ specChannelTier "HIGH" ∧
    specChannelTier "HIGH" ⊆ specChannelTier "URGENT" := by
  refine ⟨?_, by decide, by decide⟩
  rcases h with h | h | h <;> simp [sendNotificationToProvider, specChannelTier, h]

/-- Witness for C3 at a concrete NORMAL-priority alert. -/
theorem dispatch_channels_match_priority_tier_witness :
    ((exAlert "NORMAL" "LOW").priority = "NORMAL" ∨
      (exAlert "NORMAL" "LOW").priority = "HIGH" ∨
      (exAlert "NORMAL" "LOW").priority = "URGENT") ∧
    ((sendNotificationToProvider envAllOk "T1" (exAlert "NORMAL" "LOW")
        exProviderNurse).channels_used = specChannelTier (exAlert "NORMAL" "LOW").priority ∧
     specChannelTier "NORMAL" ⊆ specChannelTier "HIGH" ∧
     specChannelTier "HIGH" ⊆ specChannelTier "URGENT") :=
  ⟨Or.inl rfl,
   dispatch_channels_match_priority_tier envAllOk "T1" (exAlert "NORMAL" "LOW")
     exProviderNurse (Or.inl rfl)⟩

/-- Unfolding equation for `determineNotificationRecipients`. -/
lemma determineNotificationRecipients_eq
    (providers : List (String × Provider)) (alert : Alert) :
    determineNotificationRecipients providers alert =
      if ((["nurse_david"]
            ++ (if alert.risk_level = "CRITICAL" || alert.priority = "URGENT"
                then ["dr_smith"] else [])).filter
            fun rid => isOnCall providers rid).isEmpty
      then providers.map Prod.fst
      else (["nurse_david"]
            ++ (if alert.risk_level = "CRITICAL" || alert.priority = "URGENT"
                then ["dr_smith"] else [])).filter
            fun rid => isOnCall providers rid := rfl

/-- C2: for a non-empty directory, recipient resolution never returns the
empty list, and its result is either the on-call filter of the candidate set
(primary nurse, plus the physician exactly for CRITICAL risk or URGENT
priority) or, when that filter is empty, the fail-open fallback to every
directory key. -/
theorem resolve_recipients_nonempty_failopen
    (providers : List (String × Provider)) (alert : Alert)
    (h : providers ≠ []) :
    determineNotificationRecipients providers alert ≠ [] ∧
    ((∀ r ∈ determineNotificationRecipients providers alert,
        isOnCall providers r = true ∧
        (r = "nurse_david" ∨
          (r = "dr_smith" ∧ (alert.risk_level = "CRITICAL" ∨ alert.priority = "URGENT")))) ∨
      determineNotificationRecipients providers alert = providers.map Prod.fst) := by
  rw [determineNotificationRecipients_eq]
  by_cases hemp : ((["nurse_david"]
      ++ (if alert.risk_level = "CRITICAL" || alert.priority = "URGENT"
          then ["dr_smith"] else [])).filter
      fun rid => isOnCall providers rid).isEmpty = true
  · rw [if_pos hemp]
    exact ⟨by simpa using h, Or.inr rfl⟩
  · rw [if_neg hemp]
    constructor
    · simpa [List.isEmpty_iff] using hemp
    · left
      intro r hr
      obtain ⟨hmem, hon⟩ := List.mem_filter.mp hr
      refine ⟨hon, ?_⟩
      by_cases hc : alert.risk_level = "CRITICAL" ∨ alert.priority = "URGENT"
      · have hb : (decide (alert.risk_level = "CRITICAL")
            || decide (alert.priority = "URGENT")) = true := by
          rcases hc with hc1 | hc1 <;> simp [hc1]
        rw [if_pos hb] at hmem
        simp at hmem
        rcases hmem with hmem | hmem
        · exact Or.inl hmem
        · exact Or.inr ⟨hmem, hc⟩
      · have hb : ¬ ((decide (alert.risk_level = "CRITICAL")
            || decide (alert.priority = "URGENT")) = true) := by
          simpa using hc
        rw [if_neg hb] at hmem
        simp at hmem
        exact Or.inl hmem

/-- Witness for C2 at the seeded directory and a concrete HIGH-priority alert. -/
theorem resolve_recipients_nonempty_failopen_witness :
    initialProviders ≠ [] ∧
    (determineNotificationRecipients initialProviders (exAlert "HIGH" "MODERATE") ≠ [] ∧
     ((∀ r ∈ determineNotificationRecipients initialProviders (exAlert "HIGH" "MODERATE"),
         isOnCall initialProviders r = true ∧
         (r = "nurse_david" ∨
           (r = "dr_smith" ∧ ((exAlert "HIGH" "MODERATE").risk_level = "CRITICAL" ∨
             (exAlert "HIGH" "MODERATE").priority = "URGENT")))) ∨
       determineNotificationRecipients initialProviders (exAlert "HIGH" "MODERATE")
         = initialProviders.map Prod.fst)) :=
  ⟨by decide,
   resolve_recipients_nonempty_failopen initialProviders (exAlert "HIGH" "MODERATE")
     (by decide)⟩

/-- C4 counterexample: on an assessment missing its risk level, `send_alert`
does not report a validation error — it returns status `"alert_sent"` and
creates an Alert whose risk level is the silent `dict.get` default
`"MODERATE"`. -/
theorem create_alert_missing_risk_counterexample :
    (sendAlert initialState envAllOk
        ⟨"I have a high fever", ⟨none, some ["fever"], some 7, none, none⟩,
         ⟨some "Elena", none⟩, some "HIGH", some "T1"⟩ "20250101_120000" "T1").2.status
      = "alert_sent" ∧
    ¬ (sendAlert initialState envAllOk
        ⟨"I have a high fever", ⟨none, some ["fever"], some 7, none, none⟩,
         ⟨some "Elena", none⟩, some "HIGH", some "T1"⟩ "20250101_120000" "T1").2.status
      = "error" ∧
    ((sendAlert initialState envAllOk
        ⟨"I have a high fever", ⟨none, some ["fever"], some 7, none, none⟩,
         ⟨some "Elena", none⟩, some "HIGH", some "T1"⟩ "20250101_120000" "T1").1.alert_history).length
      = 1 ∧
    ((sendAlert initialState envAllOk
        ⟨"I have a high fever", ⟨none, some ["fever"], some 7, none, none⟩,
         ⟨some "Elena", none⟩, some "HIGH", some "T1"⟩ "20250101_120000" "T1").1.alert_history).map
        (fun a => a.risk_level)
      = ["MODERATE"] :=
  ⟨rfl, by decide, rfl, rfl⟩

/-- C4 (amended): alert creation never fails and never reports a validation
error: on every request — including one whose assessment is missing its risk
level — `send_alert` returns status `"alert_sent"` and appends exactly one
Alert, whose risk level is the assessment's risk level defaulted to
`"MODERATE"` when missing. -/
theorem send_alert_defaults_missing_risk
    (st : AgentState) (env : Channel → Bool) (req : SendAlertRequest)
    (now nowIso : String) :
    (sendAlert st env req now nowIso).2.status = "alert_sent" ∧
    ∃ a, (sendAlert st env req now nowIso).1.alert_history = st.alert_history ++ [a] ∧
      a.status = "sent" ∧
      a.risk_level = req.triage_assessment.risk_level.getD "MODERATE" :=
  ⟨rfl, _, rfl, rfl, rfl⟩

/-- Transitivity of the boolean newest-first comparison used by the in-place
timestamp sort. -/
lemma tsDescBool_trans : ∀ a b c : Alert,
    decide (b.timestamp ≤ a.timestamp) = true →
    decide (c.timestamp ≤ b.timestamp) = true →
    decide (c.timestamp ≤ a.timestamp) = true := by
  intro a b c h1 h2
  simp only [decide_eq_true_eq] at *
  exact le_trans h2 h1

/-- Totality of the boolean newest-first comparison. -/
lemma tsDescBool_total : ∀ a b : Alert,
    (decide (b.timestamp ≤ a.timestamp) || decide (a.timestamp ≤ b.timestamp)) = true := by
  intro a b
  simpa using le_total b.timestamp a.timestamp

/-- The in-place sort is a permutation of its input. -/
lemma pySortByTimestampDesc_perm (l : List Alert) :
    (pySortByTimestampDesc l).Perm l :=
  List.mergeSort_perm l _

/-- The in-place sort orders alerts newest-first by timestamp. -/
lemma pySortByTimestampDesc_pairwise (l : List Alert) :
    (pySortByTimestampDesc l).Pairwise fun a b => b.timestamp ≤ a.timestamp := by
  have h : (l.mergeSort fun a b => decide (b.timestamp ≤ a.timestamp)).Pairwise
      (fun a b => (fun a b : Alert => decide (b.timestamp ≤ a.timestamp)) a b = true) :=
    List.sorted_mergeSort tsDescBool_trans tsDescBool_total l
  exact h.imp fun hab => by simpa using hab

/-- Unfolding equation for `getAlertHistory` with a non-empty patient name. -/
lemma getAlertHistory_filtered (st : AgentState) (name : String) (limit : Option Nat)
    (h : name ≠ "") :
    getAlertHistory st ⟨limit, some name⟩ =
      (st,
       { status := "success"
         alerts := (pySortByTimestampDesc
            (st.alert_history.filter fun a => a.patient_info.name = name)).take (limit.getD 50)
         total_alerts := (pySortByTimestampDesc
            (st.alert_history.filter fun a => a.patient_info.name = name)).length
         limit_applied := limit.getD 50 }) := by
  have ht : patientNameTruthy (some name) = true := by
    simp [patientNameTruthy, h]
  simp [getAlertHistory, ht]

/-- C7 counterexample: queried with the patient name `""` (a legal patient
name value), the history query returns an alert whose patient snapshot name is
`"Elena"`, not `""` — Python truthiness treats the empty string like a missing
filter, so the claim fails for the empty patient name. -/
theorem history_empty_name_filter_counterexample :
    (getAlertHistory exStore ⟨some 50, some ""⟩).2.alerts = [exAlert "HIGH" "MODERATE"] ∧
    ¬ (exAlert "HIGH" "MODERATE").patient_info.name = "" := by
  constructor
  · have hf : patientNameTruthy (some "") = false := by decide
    simp [getAlertHistory, hf, pySortByTimestampDesc, exStore]
  · decide

/-- C7 (amended): for every store state, every NON-EMPTY patient name and
every limit, the history query succeeds and returns only alerts whose patient
snapshot name equals the given name exactly, ordered newest-first by creation
timestamp, with at most `limit` results. (The empty patient name is falsy in
Python and disables the filter.) -/
theorem history_filter_matches_sorted_limited
    (st : AgentState) (name : String) (limit : Option Nat)
    (h : name ≠ "") :
    (getAlertHistory st ⟨limit, some name⟩).2.status = "success" ∧
    (∀ a ∈ (getAlertHistory st ⟨limit, some name⟩).2.alerts,
      a.patient_info.name = name) ∧
    ((getAlertHistory st ⟨limit, some name⟩).2.alerts).Pairwise
      (fun a b => b.timestamp ≤ a.timestamp) ∧
    ((getAlertHistory st ⟨limit, some name⟩).2.alerts).length ≤ limit.getD 50 := by
  rw [getAlertHistory_filtered st name limit h]
  refine ⟨rfl, ?_, ?_, ?_⟩
  · intro a ha
    have h1 : a ∈ pySortByTimestampDesc
        (st.alert_history.filter fun x => x.patient_info.name = name) :=
      List.take_subset _ _ ha
    have h2 : a ∈ st.alert_history.filter fun x => x.patient_info.name = name :=
      (pySortByTimestampDesc_perm _).mem_iff.mp h1
    have h3 := (List.mem_filter.mp h2).2
    simpa using h3
  · exact List.Pairwise.sublist (List.take_sublist _ _)
      (pySortByTimestampDesc_pairwise _)
  · rw [List.length_take]
    exact min_le_left _ _

/-- Witness for C7's amended theorem at the sample store, name "Elena" and
limit 1. -/
theorem history_filter_matches_sorted_limited_witness :
    ("Elena" : String) ≠ "" ∧
    ((getAlertHistory exStore ⟨some 1, some "Elena"⟩).2.status = "success" ∧
     (∀ a ∈ (getAlertHistory exStore ⟨some 1, some "Elena"⟩).2.alerts,
       a.patient_info.name = "Elena") ∧
     ((getAlertHistory exStore ⟨some 1, some "Elena"⟩).2.alerts).Pairwise
       (fun a b => b.timestamp ≤ a.timestamp) ∧
     ((getAlertHistory exStore ⟨some 1, some "Elena"⟩).2.alerts).length
       ≤ (some 1 : Option Nat).getD 50) :=
  ⟨by decide, history_filter_matches_sorted_limited exStore "Elena" (some 1) (by decide)⟩

/-- Unfolding equation for `getAlertHistory` without a patient-name filter. -/
lemma getAlertHistory_unfiltered (st : AgentState) (limit : Option Nat) :
    getAlertHistory st ⟨limit, none⟩ =
      ({ st with alert_history := pySortByTimestampDesc st.alert_history },
       { status := "success"
         alerts := (pySortByTimestampDesc st.alert_history).take (limit.getD 50)
         total_alerts := (pySortByTimestampDesc st.alert_history).length
         limit_applied := limit.getD 50 }) := rfl

/-- C10: a history query without a patient-name filter rewrites the store's
own history list to its newest-first ordering (the returned page is a prefix
of that reordered store list), while the multiset of stored alerts is
unchanged (the new history is a permutation of the old). -/
theorem history_unfiltered_sorts_store_in_place
    (st : AgentState) (limit : Option Nat) :
    ((getAlertHistory st ⟨limit, none⟩).1.alert_history).Perm st.alert_history ∧
    ((getAlertHistory st ⟨limit, none⟩).1.alert_history).Pairwise
      (fun a b => b.timestamp ≤ a.timestamp) ∧
    (getAlertHistory st ⟨limit, none⟩).2.alerts
      = ((getAlertHistory st ⟨limit, none⟩).1.alert_history).take (limit.getD 50) := by
  rw [getAlertHistory_unfiltered]
  exact ⟨pySortByTimestampDesc_perm _, pySortByTimestampDesc_pairwise _, rfl⟩

/-- How `updateFirstMatch` treats the first alert carrying the requested id:
the history splits around that alert, every earlier alert has a different id,
and the update rewrites exactly that position with the incremented escalation
level and the new priority. -/
lemma updateFirstMatch_of_find (alert_id new_priority : String)
    (l : List Alert) (a : Alert)
    (h : findAlert l alert_id = some a) :
    ∃ pre post, l = pre ++ a :: post ∧ (∀ b ∈ pre, b.alert_id ≠ alert_id) ∧
      a.alert_id = alert_id ∧
      updateFirstMatch alert_id new_priority l
        = some (pre ++ { a with priority := new_priority,
                                escalation_level := a.escalation_level + 1 } :: post,
                a,
                { a with priority := new_priority,
                         escalation_level := a.escalation_level + 1 }) := by
  induction l with
  | nil => simp [findAlert] at h
  | cons x xs ih =>
    by_cases hx : x.alert_id = alert_id
    · have hfind : List.find? (fun b => decide (b.alert_id = alert_id)) (x :: xs)
          = some x :=
        List.find?_cons_of_pos xs (by simp [hx])
      have hxa : x = a := by
        rw [findAlert, hfind] at h
        exact Option.some.inj h
      subst hxa
      exact ⟨[], xs, rfl, by simp, hx, by simp [updateFirstMatch, hx]⟩
    · have hfind : List.find? (fun b => decide (b.alert_id = alert_id)) (x :: xs)
          = List.find? (fun b => decide (b.alert_id = alert_id)) xs :=
        List.find?_cons_of_neg xs (by simp [hx])
      have h' : findAlert xs alert_id = some a := by
        rw [findAlert, hfind] at h
        exact h
      obtain ⟨pre, post, hsplit, hpre, ha, hupd⟩ := ih h'
      refine ⟨x :: pre, post, by simp [hsplit], ?_, ha, ?_⟩
      · intro b hb
        rcases List.mem_cons.mp hb with hb | hb
        · exact hb ▸ hx
        · exact hpre b hb
      · simp [updateFirstMatch, hx, hupd]

/-- Effect of `escalate_alert` on the history when the id is present: the
first matching alert is rewritten in place (new priority, escalation level
incremented) and the fresh alert produced by the inner `send_alert` cycle is
appended at the end. -/
lemma escalate_found (st : AgentState) (env : Channel → Bool) (alert_id : String)
    (pri : Option String) (now nowIso : String) (a : Alert)
    (h : findAlert st.alert_history alert_id = some a) :
    ∃ pre post,
      st.alert_history = pre ++ a :: post ∧
      (∀ b ∈ pre, b.alert_id ≠ alert_id) ∧
      a.alert_id = alert_id ∧
      (escalateAlert st env alert_id pri now nowIso).1.alert_history
        = (pre ++ { a with priority := pri.getD "URGENT",
                           escalation_level := a.escalation_level + 1 } :: post)
          ++ [createAlert st.alert_history.length
                ("ESCALATED: " ++ a.patient_info.original_message)
                a.triage_assessment
                ⟨some a.patient_info.name, some a.patient_info.condition⟩
                (pri.getD "URGENT") nowIso now] := by
  obtain ⟨pre, post, hsplit, hpre, ha, hupd⟩ :=
    updateFirstMatch_of_find alert_id (pri.getD "URGENT") st.alert_history a h
  refine ⟨pre, post, hsplit, hpre, ha, ?_⟩
  simp only [escalateAlert, hupd, sendAlert, Option.getD_some]
  rw [hsplit]
  simp

/-- After a successful escalate, looking the id up again finds the same alert
with its escalation level incremented and its priority overwritten. -/
lemma findAlert_after_escalate (st : AgentState) (env : Channel → Bool)
    (alert_id : String) (pri : Option String) (now nowIso : String) (a : Alert)
    (h : findAlert st.alert_history alert_id = some a) :
    findAlert (escalateAlert st env alert_id pri now nowIso).1.alert_history alert_id
      = some { a with priority := pri.getD "URGENT",
                      escalation_level := a.escalation_level + 1 } := by
  obtain ⟨pre, post, hsplit, hpre, ha, heq⟩ :=
    escalate_found st env alert_id pri now nowIso a h
  rw [heq, findAlert, List.find?_append, List.find?_append]
  have hnone : List.find? (fun b => decide (b.alert_id = alert_id)) pre = none :=
    List.find?_eq_none.mpr (by intro b hb; simpa using hpre b hb)
  have hcons : List.find? (fun b => decide (b.alert_id = alert_id))
      ({ a with priority := pri.getD "URGENT",
                escalation_level := a.escalation_level + 1 } :: post)
      = some { a with priority := pri.getD "URGENT",
                      escalation_level := a.escalation_level + 1 } :=
    List.find?_cons_of_pos post (by simp [ha])
  rw [hnone, hcons]
  rfl

/-- C6: for an alert id present in the store, escalating increments exactly
that alert's escalation level by one, and a second escalate call on the same
id leaves its escalation level exactly 2 above the original value. -/
theorem escalate_increments_level_by_one_twice_by_two
    (st : AgentState) (env env2 : Channel → Bool) (alert_id : String)
    (pri pri2 : Option String) (now nowIso now2 nowIso2 : String) (a : Alert)
    (h : findAlert st.alert_history alert_id = some a) :
    (∃ a1, findAlert (escalateAlert st env alert_id pri now nowIso).1.alert_history alert_id
        = some a1 ∧ a1.escalation_level = a.escalation_level + 1) ∧
    (∃ a2, findAlert (escalateAlert (escalateAlert st env alert_id pri now nowIso).1
          env2 alert_id pri2 now2 nowIso2).1.alert_history alert_id
        = some a2 ∧ a2.escalation_level = a.escalation_level + 2) := by
  have h1 := findAlert_after_escalate st env alert_id pri now nowIso a h
  have h2 := findAlert_after_escalate (escalateAlert st env alert_id pri now nowIso).1
    env2 alert_id pri2 now2 nowIso2 _ h1
  exact ⟨⟨_, h1, rfl⟩, ⟨_, h2, rfl⟩⟩

/-- Witness for C6 at the sample store and alert id "a1". -/
theorem escalate_increments_level_by_one_twice_by_two_witness :
    findAlert exStore.alert_history "a1" = some (exAlert "HIGH" "MODERATE") ∧
    ((∃ a1, findAlert (escalateAlert exStore envAllOk "a1" none "t1" "T1").1.alert_history "a1"
        = some a1 ∧ a1.escalation_level = (exAlert "HIGH" "MODERATE").escalation_level + 1) ∧
     (∃ a2, findAlert (escalateAlert (escalateAlert exStore envAllOk "a1" none "t1" "T1").1
           envAllOk "a1" none "t2" "T2").1.alert_history "a1"
        = some a2 ∧ a2.escalation_level = (exAlert "HIGH" "MODERATE").escalation_level + 2)) :=
  ⟨by decide,
   escalate_increments_level_by_one_twice_by_two exStore envAllOk envAllOk "a1"
     none none "t1" "T1" "t2" "T2" (exAlert "HIGH" "MODERATE") (by decide)⟩

/-- C9: for an alert id present in the store, a successful escalate appends
exactly one brand-new Alert record — carrying the freshly generated alert id
built from the new sequence number and current time, escalation level 0, and
the original patient message prefixed with "ESCALATED: " — in addition to
rewriting the original alert's priority and escalation level in place, so the
history length grows by exactly one. -/
theorem escalate_appends_single_fresh_alert
    (st : AgentState) (env : Channel → Bool) (alert_id : String)
    (pri : Option String) (now nowIso : String) (a : Alert)
    (h : findAlert st.alert_history alert_id = some a) :
    ((escalateAlert st env alert_id pri now nowIso).1.alert_history).length
      = st.alert_history.length + 1 ∧
    ∃ pre post fresh,
      st.alert_history = pre ++ a :: post ∧
      (escalateAlert st env alert_id pri now nowIso).1.alert_history
        = (pre ++ { a with priority := pri.getD "URGENT",
                           escalation_level := a.escalation_level + 1 } :: post)
          ++ [fresh] ∧
      fresh.escalation_level = 0 ∧
      fresh.status = "sent" ∧
      fresh.patient_info.original_message
        = "ESCALATED: " ++ a.patient_info.original_message ∧
      fresh.alert_id = mkAlertId (st.alert_history.length + 1) now := by
  obtain ⟨pre, post, hsplit, hpre, ha, heq⟩ :=
    escalate_found st env alert_id pri now nowIso a h
  constructor
  · rw [heq, hsplit]
    simp
    try omega
  · exact ⟨pre, post, _, hsplit, heq, rfl, rfl, rfl, rfl⟩

/-- Witness for C9 at the sample store and alert id "a1". -/
theorem escalate_appends_single_fresh_alert_witness :
    findAlert exStore.alert_history "a1" = some (exAlert "HIGH" "MODERATE") ∧
    (((escalateAlert exStore envAllOk "a1" none "t1" "T1").1.alert_history).length
       = exStore.alert_history.length + 1 ∧
     ∃ pre post fresh,
       exStore.alert_history = pre ++ exAlert "HIGH" "MODERATE" :: post ∧
       (escalateAlert exStore envAllOk "a1" none "t1" "T1").1.alert_history
         = (pre ++ { exAlert "HIGH" "MODERATE" with
                       priority := (none : Option String).getD "URGENT",
                       escalation_level :=
                         (exAlert "HIGH" "MODERATE").escalation_level + 1 } :: post)
           ++ [fresh] ∧
       fresh.escalation_level = 0 ∧
       fresh.status = "sent" ∧
       fresh.patient_info.original_message
         = "ESCALATED: " ++ (exAlert "HIGH" "MODERATE").patient_info.original_message ∧
       fresh.alert_id = mkAlertId (exStore.alert_history.length + 1) "t1") :=
  ⟨by decide,
   escalate_appends_single_fresh_alert exStore envAllOk "a1" none "t1" "T1"
     (exAlert "HIGH" "MODERATE") (by decide)⟩

/-- Stripping only erodes the ends of a string: if both the part before and
the part after a middle segment contain a non-whitespace character, stripping
keeps the middle segment intact. -/
lemma pyStripList_sandwich (A T B : List Char)
    (hA : ∃ c ∈ A, isPySpace c = false) (hB : ∃ c ∈ B, isPySpace c = false) :
    pyStripList (A ++ (T ++ B))
      = A.dropWhile isPySpace ++ (T ++ (B.reverse.dropWhile isPySpace).reverse) := by
  have hA' : A.dropWhile isPySpace ≠ [] := by
    rw [Ne, List.dropWhile_eq_nil_iff]
    push_neg
    obtain ⟨c, hc, hcf⟩ := hA
    exact ⟨c, hc, by simp [hcf]⟩
  have hB' : B.reverse.dropWhile isPySpace ≠ [] := by
    rw [Ne, List.dropWhile_eq_nil_iff]
    push_neg
    obtain ⟨c, hc, hcf⟩ := hB
    exact ⟨c, List.mem_reverse.mpr hc, by simp [hcf]⟩
  have hAe : (A.dropWhile isPySpace).isEmpty = false := by
    simpa [List.isEmpty_iff] using hA'
  have hBe : (B.reverse.dropWhile isPySpace).isEmpty = false := by
    simpa [List.isEmpty_iff] using hB'
  simp [pyStripList, List.dropWhile_append, hAe, hBe, List.reverse_append, List.append_assoc]

/-- The characters of the truncated patient report: the first 150 characters
of the message, with the ellipsis marker appended exactly when the message is
longer than 150 characters. -/
lemma truncatedReport_data (s : String) :
    (truncatedReport s).data
      = s.data.take 150 ++ (if 150 < s.data.length then ("...").data else []) := by
  unfold truncatedReport pyTake pyLen
  rw [String.data_append]
  congr 1
  by_cases h : 150 < s.data.length
  · rw [if_pos h, if_pos h]
  · rw [if_neg h, if_neg h]

/-- Packaging of `pyStripList_sandwich` for a string with a known
three-part character decomposition. -/
lemma pyStrip_data_sandwich (x : String) (A T B : List Char)
    (hx : x.data = A ++ (T ++ B))
    (hA : ∃ c ∈ A, isPySpace c = false) (hB : ∃ c ∈ B, isPySpace c = false) :
    ∃ pre post, (pyStrip x).data = pre ++ (T ++ post) := by
  refine ⟨A.dropWhile isPySpace, (B.reverse.dropWhile isPySpace).reverse, ?_⟩
  have hd : (pyStrip x).data = pyStripList x.data := rfl
  rw [hd, hx, pyStripList_sandwich A T B hA hB]

/-- The rendered alert message decomposes around the truncated patient
report: stripping affects only the template's outermost whitespace. -/
lemma formatAlertMessage_decomp (patient_name patient_message : String)
    (symptoms : List String) (risk_level now : String) :
    ∃ pre post,
      (formatAlertMessage patient_name patient_message symptoms risk_level now).data
        = pre ++ ((truncatedReport patient_message).data ++ post) := by
  have hA : ∃ c ∈ ("\n".data
        ++ ((urgencyIndicator risk_level).data
        ++ ((": Patient Alert - ").data
        ++ (patient_name.data
        ++ (("\n\nSYMPTOMS: ").data
        ++ ((if symptoms.isEmpty then "See details" else joinComma symptoms).data
        ++ ("\nPATIENT REPORT: \"").data)))))), isPySpace c = false := by
    refine ⟨'P', ?_, by decide⟩
    exact List.mem_append_right _ (List.mem_append_right _ (List.mem_append_right _
      (List.mem_append_right _ (List.mem_append_right _ (List.mem_append_right _
        (by decide))))))
  have hB : ∃ c ∈ (("\"\n\nRISK LEVEL: ").data
        ++ (risk_level.data
        ++ (("\nIMMEDIATE ACTION: ").data
        ++ ((if risk_level = "CRITICAL" then "Contact patient immediately"
             else "Review and respond within expected timeframe").data
        ++ (("\n\nAlert ID: ").data
        ++ (now.data
        ++ ("\n        ").data)))))), isPySpace c = false := by
    refine ⟨'R', List.mem_append_left _ ?_, by decide⟩
    decide
  have hs : ("\n" ++ urgencyIndicator risk_level ++ ": Patient Alert - " ++ patient_name
      ++ "\n\nSYMPTOMS: "
      ++ (if symptoms.isEmpty then "See details" else joinComma symptoms)
      ++ "\nPATIENT REPORT: \"" ++ truncatedReport patient_message
      ++ "\"\n\nRISK LEVEL: " ++ risk_level
      ++ "\nIMMEDIATE ACTION: "
      ++ (if risk_level = "CRITICAL" then "Contact patient immediately"
          else "Review and respond within expected timeframe")
      ++ "\n\nAlert ID: " ++ now
      ++ "\n        ").data
      = ("\n".data
        ++ ((urgencyIndicator risk_level).data
        ++ ((": Patient Alert - ").data
        ++ (patient_name.data
        ++ (("\n\nSYMPTOMS: ").data
        ++ ((if symptoms.isEmpty then "See details" else joinComma symptoms).data
        ++ ("\nPATIENT REPORT: \"").data))))))
        ++ ((truncatedReport patient_message).data
        ++ (("\"\n\nRISK LEVEL: ").data
        ++ (risk_level.data
        ++ (("\nIMMEDIATE ACTION: ").data
        ++ ((if risk_level = "CRITICAL" then "Contact patient immediately"
             else "Review and respond within expected timeframe").data
        ++ (("\n\nAlert ID: ").data
        ++ (now.data
        ++ ("\n        ").data))))))) := by
    simp [String.data_append, List.append_assoc]
  exact pyStrip_data_sandwich
    ("\n" ++ urgencyIndicator risk_level ++ ": Patient Alert - " ++ patient_name
      ++ "\n\nSYMPTOMS: "
      ++ (if symptoms.isEmpty then "See details" else joinComma symptoms)
      ++ "\nPATIENT REPORT: \"" ++ truncatedReport patient_message
      ++ "\"\n\nRISK LEVEL: " ++ risk_level
      ++ "\nIMMEDIATE ACTION: "
      ++ (if risk_level = "CRITICAL" then "Contact patient immediately"
          else "Review and respond within expected timeframe")
      ++ "\n\nAlert ID: " ++ now
      ++ "\n        ") _ _ _ hs hA hB

/-- C8: the rendered alert message contains the original patient message
truncated to at most its first 150 characters, with the ellipsis marker
appended exactly when the original message exceeds 150 characters. -/
theorem alert_message_truncated_at_150
    (patient_name patient_message : String) (symptoms : List String)
    (risk_level now : String) :
    ∃ pre post,
      (formatAlertMessage patient_name patient_message symptoms risk_level now).data
        = pre ++ ((patient_message.data.take 150
            ++ (if 150 < patient_message.data.length then ("...").data else [])) ++ post) ∧
      patient_message.data.take 150 <+: patient_message.data ∧
      (patient_message.data.take 150).length ≤ 150 := by
  obtain ⟨pre, post, hdecomp⟩ :=
    formatAlertMessage_decomp patient_name patient_message symptoms risk_level now
  refine ⟨pre, post, ?_, List.take_prefix _ _, ?_⟩
  · rw [hdecomp, truncatedReport_data]
  · rw [List.length_take]
    exact min_le_left _ _

end CareConnect
